import Mathlib

/-
  Verification development for the appointment-negotiation core of the
  ADRD Care System backend (src/agent.py).

  The Python source is shallowly embedded as pure Lean functions.  Network
  I/O (httpx calls to the external scheduling service, and the LLM agent
  calls) is modelled by oracles: a function `Nat → AvailHttp` gives the
  outcome of the k-th availability HTTP call made during a chat turn, a
  `BookHttp` value gives the outcome of the booking POST, and a
  `Nat → Option String` gives the outcome of successive LLM-agent attempts.
  Every embedded operation additionally returns the list of network calls
  it performed, so "no network call is made" claims are statements about
  that trace.  Raised Python exceptions are modelled with `Except`.
-/

namespace ADRD

/-! ### String helpers (models of Python `str.join` and f-string loops) -/

/-- Concatenation of a list of strings, modelling repeated `+=` in a loop. -/
def joinAll : List String → String
  | [] => ""
  | s :: ss => s ++ joinAll ss

/-- Model of Python `sep.join(xs)`. -/
def joinSep (sep : String) : List String → String
  | [] => ""
  | [x] => x
  | x :: y :: xs => x ++ sep ++ joinSep sep (y :: xs)

/-- The ASCII digit character for a single digit value. -/
def digitChar (n : Nat) : Char := Char.ofNat (48 + n)

/-- Fuel-driven decimal digit expansion (fuel ≥ 1 + number of digits). -/
def natDigitsAux : Nat → Nat → List Char
  | 0, _ => []
  | fuel + 1, n =>
    if n < 10 then [digitChar n] else natDigitsAux fuel (n / 10) ++ [digitChar (n % 10)]

/-- Decimal rendering of a natural number. -/
def natToString (n : Nat) : String := ⟨natDigitsAux (n + 1) n⟩

/-- Zero-pad to two digits, as `strftime` does for `%m` and `%d`. -/
def pad2 (n : Nat) : String := if n < 10 then "0" ++ natToString n else natToString n

/-- Zero-pad to four digits, as `strftime` does for `%Y`. -/
def pad4 (n : Nat) : String :=
  if n < 10 then "000" ++ natToString n
  else if n < 100 then "00" ++ natToString n
  else if n < 1000 then "0" ++ natToString n
  else natToString n

/-! ### Calendar dates (model of `datetime.strptime/strftime/timedelta`) -/

/-- A calendar date, as carried by `datetime` in the source. -/
structure Date where
  month : Nat
  day : Nat
  year : Nat
deriving DecidableEq, Repr

/-- Gregorian leap-year rule used by `datetime`. -/
def isLeapYear (y : Nat) : Bool := y % 4 = 0 && (y % 100 ≠ 0 || y % 400 = 0)

/-- Number of days in a month of a given year. -/
def daysInMonth (m y : Nat) : Nat :=
  if m = 2 then (if isLeapYear y then 29 else 28)
  else if m = 4 ∨ m = 6 ∨ m = 9 ∨ m = 11 then 30
  else 31

/-- Model of `current_date + timedelta(days=1)`. -/
def nextDay (d : Date) : Date :=
  if d.day < daysInMonth d.month d.year then ⟨d.month, d.day + 1, d.year⟩
  else if d.month < 12 then ⟨d.month + 1, 1, d.year⟩
  else ⟨1, 1, d.year + 1⟩

/-- `n` applications of `nextDay`. -/
def addDays (d : Date) : Nat → Date
  | 0 => d
  | n + 1 => nextDay (addDays d n)

/-- Model of `current_date.strftime("%m/%d/%Y")`. -/
def formatDate (d : Date) : String := pad2 d.month ++ "/" ++ pad2 d.day ++ "/" ++ pad4 d.year

/-- Split a character list at every `'/'` (for parsing `MM/DD/YYYY`). -/
def splitSlash : List Char → List (List Char)
  | [] => [[]]
  | c :: cs =>
    if c = '/' then [] :: splitSlash cs
    else
      match splitSlash cs with
      | [] => [[c]]
      | p :: ps => (c :: p) :: ps

/-- Accumulating decimal reader; fails on any non-digit character. -/
def digitsToNatAux : List Char → Nat → Option Nat
  | [], acc => some acc
  | c :: cs, acc => if c.isDigit then digitsToNatAux cs (acc * 10 + (c.toNat - 48)) else none

/-- Read a non-empty all-digit character list as a natural number. -/
def digitsToNat? : List Char → Option Nat
  | [] => none
  | c :: cs => digitsToNatAux (c :: cs) 0

/--
Model of `datetime.strptime(s, "%m/%d/%Y")`: `%m` matches one or two digits
valued 1..12, `%d` one or two digits valued ≥ 1 and no larger than the length
of the month, `%Y` exactly four digits with year ≥ 1; the whole string must be
consumed.  `none` models the `ValueError` that `strptime` raises otherwise.
-/
def parseDate (s : String) : Option Date :=
  match splitSlash s.data with
  | [ms, ds, ys] =>
    match digitsToNat? ms, digitsToNat? ds, digitsToNat? ys with
    | some m, some d, some y =>
      if 1 ≤ ms.length ∧ ms.length ≤ 2 ∧ 1 ≤ m ∧ m ≤ 12 ∧
         1 ≤ ds.length ∧ ds.length ≤ 2 ∧ 1 ≤ d ∧
         ys.length = 4 ∧ 1 ≤ y ∧ d ≤ daysInMonth m y
      then some ⟨m, d, y⟩ else none
    | _, _, _ => none
  | _ => none

/-! ### Availability client (`get_doctor_availability`, src/agent.py:81-119) -/

/-- Decoded JSON body of a 2xx availability response; the
`available_times` field may be absent. -/
structure AvailBody where
  available_times : Option (List String)
deriving DecidableEq, Repr

/-- Outcome of one `httpx` GET to `/doctor/availability`:
a 2xx response with decoded body, a timeout (`httpx.TimeoutException`),
a non-2xx status (`raise_for_status` raising `httpx.HTTPStatusError`),
or any other unexpected failure. -/
inductive AvailHttp
  | ok (body : AvailBody)
  | timeout
  | httpError (status : Nat)
  | unexpected
deriving DecidableEq, Repr

/-- The dict returned by `get_doctor_availability`; `Option` fields model
key presence (`none` = key absent from the dict). -/
structure AvailabilityResult where
  success : Bool
  data : Option AvailBody
  available_times : Option (List String)
  error : Option String
deriving DecidableEq, Repr

/-- Embedding of `get_doctor_availability` (src/agent.py:81-119) as a pure
function of the HTTP outcome. -/
def get_doctor_availability : AvailHttp → AvailabilityResult
  | .ok body =>
    { success := true, data := some body,
      available_times := some (body.available_times.getD []), error := none }
  | .timeout =>
    { success := false, data := none, available_times := none,
      error := some "Service temporarily unavailable" }
  | .httpError _ =>
    { success := false, data := none, available_times := none,
      error := some "Unable to fetch availability" }
  | .unexpected =>
    { success := false, data := none, available_times := none,
      error := some "An unexpected error occurred" }

/-- Rendering of an optional string inside an f-string,
as Python renders `dict.get('error')`. -/
def optionText : Option String → String
  | some s => s
  | none => "None"

/-! ### Multi-day scanner (`check_next_available_slots`, src/agent.py:121-159) -/

/-- One `{"date": ..., "times": ...}` record produced by the scanner. -/
structure DayAvail where
  date : String
  times : List String
deriving DecidableEq, Repr

/-- Which source call site performed an availability fetch. -/
inductive CallSite
  | initialCheck
  | scanner
  | bookingConflict
deriving DecidableEq, Repr

/-- A network call performed during a chat turn. -/
inductive NetCall
  | availability (site : CallSite) (doctor_id date : String)
  | booking (doctor_id date time : String)
deriving DecidableEq, Repr

/-- Is this the booking POST? -/
def isBookCall : NetCall → Bool
  | .booking _ _ _ => true
  | _ => false

/-- Is this the initial availability check of the chat turn? -/
def isInitialAvail : NetCall → Bool
  | .availability .initialCheck _ _ => true
  | _ => false

/-- Is this an availability fetch performed by the multi-day scanner? -/
def isScanAvail : NetCall → Bool
  | .availability .scanner _ _ => true
  | _ => false

/-- Is this the availability fetch performed inside `book_appointment`
on a 409 conflict? -/
def isConflictAvail : NetCall → Bool
  | .availability .bookingConflict _ _ => true
  | _ => false

/-- State accumulated by the scanner's day loop. -/
structure ScanState where
  available_slots : List DayAvail
  errors : List String
  next_k : Nat
  calls : List NetCall
deriving DecidableEq, Repr

/-- The `for _ in range(num_days)` loop of `check_next_available_slots`
(src/agent.py:140-154).  `k` is the index of the next availability HTTP
call of the turn. -/
def scanLoop (avail : Nat → AvailHttp) (doctor_id : String) :
    Nat → Date → Nat → ScanState
  | 0, _, k => ⟨[], [], k, []⟩
  | n + 1, d, k =>
    let date_str := formatDate d
    let availability := get_doctor_availability (avail k)
    let rest := scanLoop avail doctor_id n (nextDay d) (k + 1)
    let call := NetCall.availability .scanner doctor_id date_str
    if availability.success then
      if (availability.available_times.getD []) = [] then
        ⟨rest.available_slots, rest.errors, rest.next_k, call :: rest.calls⟩
      else
        ⟨{ date := date_str, times := availability.available_times.getD [] } :: rest.available_slots,
         rest.errors, rest.next_k, call :: rest.calls⟩
    else
      ⟨rest.available_slots,
       ("Error checking " ++ date_str ++ ": " ++ optionText availability.error) :: rest.errors,
       rest.next_k, call :: rest.calls⟩

/-- Faults that can propagate as raised Python exceptions. -/
inductive Fault
  | valueError
  | http (status : Nat) (detail : String)
deriving DecidableEq, Repr

deriving instance DecidableEq for Except

/-- Result of a scanner invocation: the returned list and the aggregated
warning it logged (if any), or the fault it raised; plus the availability
call counter afterwards and the trace of network calls made. -/
structure ScanOut where
  result : Except Fault (List DayAvail × Option String)
  next_k : Nat
  calls : List NetCall
deriving DecidableEq, Repr

/-- Embedding of `check_next_available_slots` (src/agent.py:121-159).
The initial `datetime.strptime(start_date, "%m/%d/%Y")` raises `ValueError`
(modelled by `.error .valueError`) on a malformed start date, before any
availability call; otherwise the day loop runs and any per-day errors are
joined into a single logged warning string. -/
def check_next_available_slots (avail : Nat → AvailHttp) (doctor_id start_date : String)
    (num_days : Nat) (k : Nat) : ScanOut :=
  match parseDate start_date with
  | none => ⟨.error .valueError, k, []⟩
  | some d0 =>
    let out := scanLoop avail doctor_id num_days d0 k
    let warning :=
      if out.errors = [] then none
      else some ("Errors while checking availability: " ++ joinSep "; " out.errors)
    ⟨.ok (out.available_slots, warning), out.next_k, out.calls⟩

/-! ### Booking client (`book_appointment`, src/agent.py:161-224) -/

/-- The extracted booking details dict supplied by the upstream intent
classifier.  Required fields are strings where the empty string models a
missing/falsy value (the source tests `not details.get(field)`); the
optional `doctor_name` models key presence with `Option`. -/
structure BookingDetails where
  doctor_id : String
  preferred_date : String
  preferred_time : String
  doctor_name : Option String
deriving DecidableEq, Repr

/-- The `[field for field in required_fields if not details.get(field)]`
list comprehension of src/agent.py:179. -/
def requiredMissing (d : BookingDetails) : List String :=
  (if d.doctor_id = "" then ["doctor_id"] else []) ++
  (if d.preferred_date = "" then ["preferred_date"] else []) ++
  (if d.preferred_time = "" then ["preferred_time"] else [])

/-- Decoded JSON body of a booking response; `detail` models the
upstream-provided `detail` field (absent on some bodies). -/
structure BookBody where
  detail : Option String
deriving DecidableEq, Repr

/-- Outcome of the booking POST to `/appointments/book`: an HTTP response
with status code and decoded body, a timeout, or any other failure. -/
inductive BookHttp
  | response (status : Nat) (body : BookBody)
  | timeout
  | unexpected
deriving DecidableEq, Repr

/-- The dict returned by `book_appointment`; `Option` fields model key
presence (`none` = key absent from the dict). -/
structure BookingResult where
  success : Bool
  data : Option BookBody
  error : Option String
  alternatives : Option (List String)
deriving DecidableEq, Repr

/-- Result of a `book_appointment` invocation together with the
availability call counter afterwards and the network calls made. -/
structure BookOut where
  result : BookingResult
  next_k : Nat
  calls : List NetCall
deriving DecidableEq, Repr

/-- Embedding of `book_appointment` (src/agent.py:161-224).  On a 409
conflict it fetches fresh alternatives via `get_doctor_availability` for the
same doctor and date (availability call index `k`) and attaches
`alternative_times.get("available_times", [])`. -/
def book_appointment (details : BookingDetails) (bookH : BookHttp)
    (avail : Nat → AvailHttp) (k : Nat) : BookOut :=
  let missing := requiredMissing details
  if missing = [] then
    let bookCall := NetCall.booking details.doctor_id details.preferred_date details.preferred_time
    match bookH with
    | .response status body =>
      if status = 200 then
        ⟨{ success := true, data := some body, error := none, alternatives := none }, k, [bookCall]⟩
      else if status = 409 then
        let alternative_times := get_doctor_availability (avail k)
        ⟨{ success := false, data := none, error := some "Time slot no longer available",
           alternatives := some (alternative_times.available_times.getD []) }, k + 1,
         [bookCall, .availability .bookingConflict details.doctor_id details.preferred_date]⟩
      else
        ⟨{ success := false, data := none, error := some (body.detail.getD "Booking failed"),
           alternatives := none }, k, [bookCall]⟩
    | .timeout =>
      ⟨{ success := false, data := none, error := some "Service temporarily unavailable",
         alternatives := none }, k, [bookCall]⟩
    | .unexpected =>
      ⟨{ success := false, data := none, error := some "An unexpected error occurred",
         alternatives := none }, k, [bookCall]⟩
  else
    ⟨{ success := false, data := none,
       error := some ("Missing required fields: " ++ joinSep ", " missing),
       alternatives := none }, k, []⟩

/-! ### Retry wrapper (`process_message`, src/agent.py:226-253) -/

/-- The retry loop of `process_message`: `remaining` is the number of
attempts the `while retry_count <= max_retries` loop still allows, `i` the
index of the next attempt, `sleeps` the number of 1-second
`asyncio.sleep(1)` backoffs performed so far.  `attempts i = some c` means
the i-th `client.run` call returns a message with content `c`;
`none` means it raises. -/
def pmLoop (attempts : Nat → Option String) (max_retries : Nat) :
    Nat → Nat → Nat → Except Fault String × Nat
  | 0, _, sleeps =>
    (.error (.http 500 ("Processing error after " ++ natToString max_retries ++ " retries")), sleeps)
  | remaining + 1, i, sleeps =>
    match attempts i with
    | some content => (.ok content, sleeps)
    | none =>
      if remaining = 0 then
        (.error (.http 500 ("Processing error after " ++ natToString max_retries ++ " retries")),
         sleeps)
      else
        pmLoop attempts max_retries remaining (i + 1) (sleeps + 1)

/-- Embedding of `process_message` (src/agent.py:226-253): up to
`max_retries = 2` retries after the first failed attempt, a 1-second
backoff between attempts, then an `HTTPException(500, ...)` is raised.
Returns the outcome and the number of backoff sleeps performed. -/
def process_message (attempts : Nat → Option String) : Except Fault String × Nat :=
  pmLoop attempts 2 3 0 0

/-! ### Chat endpoint (`chat`, src/agent.py:255-385) -/

/-- The machine-readable `suggestions` payload of a `MessageResponse`:
either `{"available_times": ..., "date": ...}` (same-day alternatives) or
`{"available_days": ...}` (multi-day scan results). -/
inductive Suggestions
  | sameDay (available_times : List String) (date : String)
  | multiDay (available_days : List DayAvail)
deriving DecidableEq, Repr

/-- The response model returned by the `/chat` endpoint
(src/agent.py:58-69). -/
structure MessageResponse where
  response : String
  agent : String
  context : Option Unit
  suggestions : Option Suggestions
deriving DecidableEq, Repr

/-- Prompt text asking for the missing booking fields (src/agent.py:295). -/
def promptText (missing_fields : List String) : String :=
  "I need these additional details to book your appointment: " ++
    joinSep ", " missing_fields ++ ". Please provide them."

/-- Booking confirmation text (src/agent.py:313). -/
def confirmText (details : BookingDetails) : String :=
  "Great! Your appointment with Dr. " ++ details.doctor_name.getD details.doctor_id ++
    " is confirmed for " ++ details.preferred_date ++ " at " ++ details.preferred_time ++ "."

/-- The generic no-availability text (src/agent.py:359). -/
def troubleText : String :=
  "I'm having trouble finding available appointments. Would you like to try a different date or see other doctors' availability?"

/-- The generic boundary-failure text (src/agent.py:383). -/
def apologyText : String :=
  "I apologize, but I encountered an error. Please try again or rephrase your request."

/-- The `- {time}\n` display loop body (src/agent.py:323-324, 346-347). -/
def renderTimes (shown : List String) : String :=
  joinAll (shown.map (fun t => "- " ++ t ++ "\n"))

/-- Same-day alternatives text (src/agent.py:319-325); `shown` is the
already-truncated display list `available_times[:5]`. -/
def sameDayText (time date : String) (shown : List String) : String :=
  "I see that " ++ time ++ " isn't available on " ++ date ++
    ". Here are available times:\n" ++ renderTimes shown ++
    "\nWould you like me to book any of these times?"

/-- One day's block of the multi-day text (src/agent.py:345-348); displays
at most the first 3 times of the day. -/
def renderDay (day : DayAvail) : String :=
  "For " ++ day.date ++ ":\n" ++ renderTimes (day.times.take 3) ++ "\n"

/-- Multi-day alternatives text (src/agent.py:340-349); `shown` is the
already-truncated display list `next_days[:3]`. -/
def multiDayText (date : String) (shown : List DayAvail) : String :=
  "I apologize, but there are no appointments available on " ++ date ++
    ". Here are the next available slots:\n\n" ++ joinAll (shown.map renderDay) ++
    "Would you like to book any of these times?"

/-- Same-day alternatives response (src/agent.py:327-331): the text shows
`available_times[:5]`, the suggestions payload carries the full list and
the requested date. -/
def sameDayResp (details : BookingDetails) (available_times : List String) : MessageResponse :=
  { response := sameDayText details.preferred_time details.preferred_date (available_times.take 5),
    agent := "Appointment Coordinator", context := none,
    suggestions := some (.sameDay available_times details.preferred_date) }

/-- Multi-day alternatives response (src/agent.py:351-355): the text shows
`next_days[:3]` with at most 3 times per day, the suggestions payload
carries the complete scan result. -/
def multiDayResp (details : BookingDetails) (next_days : List DayAvail) : MessageResponse :=
  { response := multiDayText details.preferred_date (next_days.take 3),
    agent := "Appointment Coordinator", context := none,
    suggestions := some (.multiDay next_days) }

/-- The network environment of one chat turn: `avail k` is the outcome of
the k-th availability HTTP call of the turn, `book` the outcome of the
booking POST, `med` the outcomes of successive medical-agent attempts. -/
structure Env where
  avail : Nat → AvailHttp
  book : BookHttp
  med : Nat → Option String

/-- Result of one chat turn (or sub-flow): the returned response or the
raised fault, plus the trace of network calls made, in order. -/
structure TurnOut where
  result : Except Fault MessageResponse
  calls : List NetCall
deriving DecidableEq, Repr

/-- Steps 3-5 of the appointment flow (src/agent.py:317-361): offer
same-day alternatives from the already-fetched `available_times`; if that
list is empty, run the multi-day scanner (which may raise on a malformed
date) and offer its results; otherwise fall through to the generic
no-availability response. -/
def offerAlternatives (env : Env) (details : BookingDetails)
    (available_times : List String) (k : Nat) (callsSoFar : List NetCall) : TurnOut :=
  if available_times = [] then
    let scan := check_next_available_slots env.avail details.doctor_id details.preferred_date 5 k
    match scan.result with
    | .error f => ⟨.error f, callsSoFar ++ scan.calls⟩
    | .ok (next_days, _) =>
      if next_days = [] then
        ⟨.ok { response := troubleText, agent := "Appointment Coordinator",
               context := none, suggestions := none }, callsSoFar ++ scan.calls⟩
      else
        ⟨.ok (multiDayResp details next_days), callsSoFar ++ scan.calls⟩
  else
    ⟨.ok (sameDayResp details available_times), callsSoFar⟩

/-- Embedding of the appointment branch of `chat` (src/agent.py:288-361),
given the `details` and `missing_fields` extracted by the upstream intent
classifier. -/
def chatAppointment (env : Env) (details : BookingDetails)
    (missing_fields : List String) : TurnOut :=
  if missing_fields = [] then
    let availability := get_doctor_availability (env.avail 0)
    let initCall := NetCall.availability .initialCheck details.doctor_id details.preferred_date
    if availability.success then
      let available_times := (availability.data.getD { available_times := none }).available_times.getD []
      if details.preferred_time ∈ available_times then
        let booked := book_appointment details env.book env.avail 1
        if booked.result.success then
          ⟨.ok { response := confirmText details, agent := "Appointment Coordinator",
                 context := none, suggestions := none }, initCall :: booked.calls⟩
        else
          let after := offerAlternatives env details available_times booked.next_k booked.calls
          ⟨after.result, initCall :: after.calls⟩
      else
        let after := offerAlternatives env details available_times 1 []
        ⟨after.result, initCall :: after.calls⟩
    else
      ⟨.ok { response := troubleText, agent := "Appointment Coordinator",
             context := none, suggestions := none }, [initCall]⟩
  else
    ⟨.ok { response := promptText missing_fields, agent := "Appointment Coordinator",
           context := none, suggestions := none }, []⟩

/-- The routing decision decoded from the orchestrator's reply
(src/agent.py:278-285): the upstream intent classifier is an external
collaborator, so its decoded output is an input here. -/
inductive Routing
  | appointment (details : BookingDetails) (missing_fields : List String)
  | medical
  | orchestrator (response : Option String)

/-- The body of the `chat` handler after routing (src/agent.py:285-377),
before the outermost exception handler. -/
def chatBody (env : Env) : Routing → TurnOut
  | .appointment details missing_fields => chatAppointment env details missing_fields
  | .medical =>
    match (process_message env.med).1 with
    | .ok s => ⟨.ok { response := s, agent := "Medical Advisor", context := none,
                      suggestions := none }, []⟩
    | .error f => ⟨.error f, []⟩
  | .orchestrator r =>
    ⟨.ok { response := r.getD "Could you please clarify what you need help with?",
           agent := "orchestrator", context := none, suggestions := none }, []⟩

/-- The full `chat` handler (src/agent.py:255-385): any exception raised by
the body is caught at the boundary and converted into the generic apology
response with agent label "system"; the detail is logged server-side. -/
def chat (env : Env) (routing : Routing) : TurnOut :=
  let out := chatBody env routing
  match out.result with
  | .ok r => ⟨.ok r, out.calls⟩
  | .error _ =>
    ⟨.ok { response := apologyText, agent := "system", context := none,
           suggestions := none }, out.calls⟩

/-- An HTTP payload as serialized by FastAPI: either a `MessageResponse`
returned by the handler, or the detail body of a raised `HTTPException`. -/
inductive HttpPayload
  | message (r : MessageResponse)
  | errorDetail (detail : String)
deriving DecidableEq, Repr

/-- FastAPI semantics for a handler outcome: a returned response model is
serialized with status 200; an uncaught `HTTPException` produces its own
status; any other uncaught exception produces a 500. -/
def runEndpoint : Except Fault MessageResponse → Nat × HttpPayload
  | .ok r => (200, .message r)
  | .error (.http s d) => (s, .errorDetail d)
  | .error .valueError => (500, .errorDetail "Internal Server Error")

/-- The observable HTTP status and payload of one `/chat` request. -/
def chatEndpoint (env : Env) (routing : Routing) : Nat × HttpPayload :=
  runEndpoint (chat env routing).result

/-- A concrete environment in which the appointment flow reaches the
multi-day scanner: the initial availability check succeeds with an empty
times list. -/
def faultEnv : Env :=
  { avail := fun _ => .ok { available_times := some [] },
    book := .timeout,
    med := fun _ => none }

/-- A concrete appointment routing whose `preferred_date` does not parse
under `MM/DD/YYYY`, so the scanner's initial `strptime` raises. -/
def faultRouting : Routing :=
  .appointment { doctor_id := "dr_001", preferred_date := "not-a-date",
                 preferred_time := "09:00 AM", doctor_name := none } []

/-! ### Helper lemmas -/

/-- Day stepping commutes with iterated day stepping. -/
theorem addDays_nextDay (d : Date) : ∀ n, addDays (nextDay d) n = nextDay (addDays d n)
  | 0 => rfl
  | n + 1 => by rw [addDays, addDays_nextDay d n, addDays]

/-- Full characterization of the scanner's day loop: over an `n`-day window
starting at `d` with availability call counter `k`, the collected slots are
exactly the successful days with a non-empty times list, in scan order; the
recorded errors are exactly the failed days' messages, in scan order; the
counter advances by `n`; and one scanner availability call is made per day. -/
theorem scanLoop_spec (avail : Nat → AvailHttp) (doctor_id : String) :
    ∀ (n : Nat) (d : Date) (k : Nat),
    scanLoop avail doctor_id n d k =
      ⟨(List.range n).filterMap (fun i =>
          if (get_doctor_availability (avail (k + i))).success = true ∧
             (get_doctor_availability (avail (k + i))).available_times.getD [] ≠ [] then
            some ⟨formatDate (addDays d i),
                  (get_doctor_availability (avail (k + i))).available_times.getD []⟩
          else none),
        (List.range n).filterMap (fun i =>
          if (get_doctor_availability (avail (k + i))).success = true then none
          else some ("Error checking " ++ formatDate (addDays d i) ++ ": " ++
            optionText (get_doctor_availability (avail (k + i))).error)),
        k + n,
        (List.range n).map (fun i =>
          NetCall.availability .scanner doctor_id (formatDate (addDays d i)))⟩ := by
  intro n
  induction n with
  | zero => intro d k; simp [scanLoop]
  | succ n ih =>
    intro d k
    rw [scanLoop, ih (nextDay d) (k + 1), List.range_succ_eq_map]
    have h1 : ∀ i : Nat, k + 1 + i = k + (i + 1) := fun i => by omega
    have h3 : k + 1 + n = k + (n + 1) := by omega
    by_cases hs : (get_doctor_availability (avail k)).success = true
    · by_cases ht : (get_doctor_availability (avail k)).available_times.getD [] = []
      · simp [hs, ht, List.filterMap_cons, List.map_cons,
          List.filterMap_map, List.map_map, Function.comp_def, h1, h3, addDays, addDays_nextDay]
      · simp [hs, ht, List.filterMap_cons, List.map_cons,
          List.filterMap_map, List.map_map, Function.comp_def, h1, h3, addDays, addDays_nextDay]
    · simp [hs, List.filterMap_cons, List.map_cons,
          List.filterMap_map, List.map_map, Function.comp_def, h1, h3, addDays, addDays_nextDay]

/-- Per-site call counts of one `book_appointment` invocation: at most one
booking POST, at most one conflict-triggered availability fetch, and no
initial-check or scanner fetches. -/
theorem book_appointment_calls_counts (details : BookingDetails) (bookH : BookHttp)
    (avail : Nat → AvailHttp) (k : Nat) :
    (book_appointment details bookH avail k).calls.countP isBookCall ≤ 1 ∧
    (book_appointment details bookH avail k).calls.countP isInitialAvail = 0 ∧
    (book_appointment details bookH avail k).calls.countP isScanAvail = 0 ∧
    (book_appointment details bookH avail k).calls.countP isConflictAvail ≤ 1 := by
  rw [book_appointment]
  split
  · cases bookH with
    | response status b =>
      by_cases h2 : status = 200
      · simp [h2, List.countP_cons, isBookCall, isInitialAvail, isScanAvail, isConflictAvail]
      · by_cases h4 : status = 409
        · simp [h2, h4, List.countP_cons, isBookCall, isInitialAvail, isScanAvail,
            isConflictAvail]
        · simp [h2, h4, List.countP_cons, isBookCall, isInitialAvail, isScanAvail,
            isConflictAvail]
    | timeout =>
      simp [List.countP_cons, isBookCall, isInitialAvail, isScanAvail, isConflictAvail]
    | unexpected =>
      simp [List.countP_cons, isBookCall, isInitialAvail, isScanAvail, isConflictAvail]
  · simp

/-- Per-site call counts of one scanner invocation: at most `num_days`
scanner fetches and nothing else. -/
theorem scanner_calls_counts (avail : Nat → AvailHttp) (doctor_id start_date : String)
    (num_days k : Nat) :
    (check_next_available_slots avail doctor_id start_date num_days k).calls.countP
        isBookCall = 0 ∧
    (check_next_available_slots avail doctor_id start_date num_days k).calls.countP
        isInitialAvail = 0 ∧
    (check_next_available_slots avail doctor_id start_date num_days k).calls.countP
        isConflictAvail = 0 ∧
    (check_next_available_slots avail doctor_id start_date num_days k).calls.countP
        isScanAvail ≤ num_days := by
  rw [check_next_available_slots]
  cases hp : parseDate start_date with
  | none => simp
  | some d0 =>
    simp only [scanLoop_spec, List.countP_map]
    refine ⟨?_, ?_, ?_, ?_⟩
    · simp [Function.comp_def, isBookCall]
    · simp [Function.comp_def, isInitialAvail]
    · simp [Function.comp_def, isConflictAvail]
    · simp [Function.comp_def, isScanAvail]

/-- The trace of `offerAlternatives` is the calls made so far, extended by
the scanner's calls when (and only when) the fetched list was empty. -/
theorem offerAlternatives_calls (env : Env) (details : BookingDetails)
    (ts : List String) (k : Nat) (cs : List NetCall) :
    (offerAlternatives env details ts k cs).calls = cs ∨
    (offerAlternatives env details ts k cs).calls =
      cs ++ (check_next_available_slots env.avail details.doctor_id
        details.preferred_date 5 k).calls := by
  rw [offerAlternatives]
  by_cases hts : ts = []
  · rw [if_pos hts]
    right
    rcases hr : (check_next_available_slots env.avail details.doctor_id
        details.preferred_date 5 k).result with f | ⟨nd, w⟩
    · simp only [hr]
    · simp only [hr]
      rcases eq_or_ne nd [] with hnd | hnd
      · rw [if_pos hnd]
      · rw [if_neg hnd]
  · rw [if_neg hts]
    left
    rfl

/-- The call trace of an appointment turn is one of: empty, just the
initial availability check, or the initial check followed by the booking
client's calls and/or the scanner's calls. -/
theorem chatAppointment_calls_cases (env : Env) (details : BookingDetails)
    (missing_fields : List String) :
    (chatAppointment env details missing_fields).calls = [] ∨
    (chatAppointment env details missing_fields).calls =
      [NetCall.availability .initialCheck details.doctor_id details.preferred_date] ∨
    (∃ cs,
      (cs = (book_appointment details env.book env.avail 1).calls ∨
       cs = (book_appointment details env.book env.avail 1).calls ++
         (check_next_available_slots env.avail details.doctor_id details.preferred_date 5
           (book_appointment details env.book env.avail 1).next_k).calls ∨
       cs = (check_next_available_slots env.avail details.doctor_id
         details.preferred_date 5 1).calls) ∧
      (chatAppointment env details missing_fields).calls =
        NetCall.availability .initialCheck details.doctor_id details.preferred_date :: cs) := by
  rw [chatAppointment]
  by_cases hmf : missing_fields = []
  · rw [if_pos hmf]
    by_cases hs : (get_doctor_availability (env.avail 0)).success = true
    · simp only [hs, if_true]
      by_cases hm : details.preferred_time ∈
          ((get_doctor_availability (env.avail 0)).data.getD
            { available_times := none }).available_times.getD []
      · simp only [hm, if_true]
        by_cases hbs : (book_appointment details env.book env.avail 1).result.success = true
        · simp only [hbs, if_true]
          exact Or.inr (Or.inr ⟨_, Or.inl rfl, rfl⟩)
        · simp only [hbs, if_false]
          rcases offerAlternatives_calls env details
              (((get_doctor_availability (env.avail 0)).data.getD
                { available_times := none }).available_times.getD [])
              (book_appointment details env.book env.avail 1).next_k
              (book_appointment details env.book env.avail 1).calls with h | h
          · rw [h]
            exact Or.inr (Or.inr ⟨_, Or.inl rfl, rfl⟩)
          · rw [h]
            exact Or.inr (Or.inr ⟨_, Or.inr (Or.inl rfl), rfl⟩)
      · simp only [hm, if_false]
        rcases offerAlternatives_calls env details
            (((get_doctor_availability (env.avail 0)).data.getD
              { available_times := none }).available_times.getD []) 1 [] with h | h
        · rw [h]
          exact Or.inr (Or.inl rfl)
        · rw [h]
          exact Or.inr (Or.inr ⟨_, Or.inr (Or.inr rfl), rfl⟩)
    · simp only [hs, if_false]
      exact Or.inr (Or.inl rfl)
  · rw [if_neg hmf]
    exact Or.inl rfl

/-! ### Claim theorems -/

/-- Claim C10: every `get_doctor_availability` result satisfies the shape
invariant — on success the dict has a `data` key and an `available_times`
key equal to the decoded body's `available_times` field (empty list when
absent); on failure it has an `error` key and no `available_times` key, so
a defaulting lookup of `available_times` on a failed result yields `[]`. -/
theorem availability_result_shape :
    (∀ body, get_doctor_availability (.ok body) =
      { success := true, data := some body,
        available_times := some (body.available_times.getD []), error := none }) ∧
    (∀ o, (get_doctor_availability o).success = false →
      (get_doctor_availability o).error.isSome = true ∧
      (get_doctor_availability o).available_times = none ∧
      (get_doctor_availability o).available_times.getD [] = []) := by
  constructor
  · intro body; rfl
  · intro o h; cases o <;> simp_all [get_doctor_availability]

/-- Witness for C10: the failure half evaluated at a concrete timeout. -/
theorem availability_result_shape_witness :
    (get_doctor_availability AvailHttp.timeout).error.isSome = true ∧
    (get_doctor_availability AvailHttp.timeout).available_times = none ∧
    (get_doctor_availability AvailHttp.timeout).available_times.getD [] = [] :=
  availability_result_shape.2 AvailHttp.timeout (by decide)

/-- Claim C2: when the upstream extractor reports a non-empty
`missing_fields` list, the appointment turn responds with the prompt
listing exactly those field names and performs zero network calls. -/
theorem intake_missing_fields_no_network (env : Env) (details : BookingDetails)
    (missing_fields : List String) (h : missing_fields ≠ []) :
    chatAppointment env details missing_fields =
      ⟨.ok { response := "I need these additional details to book your appointment: " ++
               joinSep ", " missing_fields ++ ". Please provide them.",
             agent := "Appointment Coordinator", context := none, suggestions := none },
       []⟩ := by
  rw [chatAppointment, if_neg h]
  rfl

/-- Witness for C2 at a concrete missing-fields list. -/
theorem intake_missing_fields_no_network_witness :
    chatAppointment faultEnv { doctor_id := "", preferred_date := "12/15/2024",
                               preferred_time := "09:00 AM", doctor_name := none }
        ["doctor_id"] =
      ⟨.ok { response := "I need these additional details to book your appointment: doctor_id. Please provide them.",
             agent := "Appointment Coordinator", context := none, suggestions := none },
       []⟩ :=
  intake_missing_fields_no_network faultEnv _ ["doctor_id"] (by decide)

/-- Claim C3: when the initial availability check fails, the turn returns
the generic "trouble finding available appointments" message, and the
call trace contains only that single availability call — no booking POST
and no multi-day scan. -/
theorem initial_failure_generic_response (env : Env) (details : BookingDetails)
    (h : (get_doctor_availability (env.avail 0)).success = false) :
    chatAppointment env details [] =
      ⟨.ok { response := troubleText, agent := "Appointment Coordinator",
             context := none, suggestions := none },
       [.availability .initialCheck details.doctor_id details.preferred_date]⟩ := by
  rw [chatAppointment, if_pos rfl]
  simp [h]

/-- Witness for C3: a concrete timeout on the initial check. -/
theorem initial_failure_generic_response_witness :
    chatAppointment { avail := fun _ => .timeout, book := .timeout, med := fun _ => none }
        { doctor_id := "dr_001", preferred_date := "12/15/2024",
          preferred_time := "09:00 AM", doctor_name := none } [] =
      ⟨.ok { response := troubleText, agent := "Appointment Coordinator",
             context := none, suggestions := none },
       [.availability .initialCheck "dr_001" "12/15/2024"]⟩ :=
  initial_failure_generic_response _ _ (by decide)

/-- Claim C6: on a 409 booking response (complete fields), the outcome is
`success=false` with error "Time slot no longer available" and an
`alternatives` key that is always present, populated from a fresh
availability fetch for the same doctor and date; if that secondary fetch
fails, `alternatives` is the empty list. -/
theorem booking_conflict_alternatives (details : BookingDetails) (body : BookBody)
    (avail : Nat → AvailHttp) (k : Nat) (hc : requiredMissing details = []) :
    (book_appointment details (.response 409 body) avail k).result =
      { success := false, data := none, error := some "Time slot no longer available",
        alternatives := some ((get_doctor_availability (avail k)).available_times.getD []) } ∧
    (book_appointment details (.response 409 body) avail k).calls =
      [.booking details.doctor_id details.preferred_date details.preferred_time,
       .availability .bookingConflict details.doctor_id details.preferred_date] ∧
    ((get_doctor_availability (avail k)).success = false →
      (get_doctor_availability (avail k)).available_times.getD [] = []) ∧
    (∀ b, avail k = .ok b →
      (get_doctor_availability (avail k)).available_times.getD [] =
        b.available_times.getD []) := by
  refine ⟨?_, ?_, ?_, ?_⟩
  · simp [book_appointment, hc]
  · simp [book_appointment, hc]
  · intro hfail
    cases h : avail k <;> simp_all [get_doctor_availability]
  · intro b hb
    rw [hb]
    rfl

/-- Witness for C6: a 409 whose secondary fetch times out yields
`alternatives = some []`. -/
theorem booking_conflict_alternatives_witness :
    (book_appointment { doctor_id := "dr_001", preferred_date := "12/15/2024",
                        preferred_time := "09:00", doctor_name := none }
        (.response 409 { detail := none }) (fun _ => .timeout) 0).result =
      { success := false, data := none, error := some "Time slot no longer available",
        alternatives := some [] } ∧
    (book_appointment { doctor_id := "dr_001", preferred_date := "12/15/2024",
                        preferred_time := "09:00", doctor_name := none }
        (.response 409 { detail := none }) (fun _ => .ok { available_times := some ["10:00"] })
        0).result.alternatives = some ["10:00"] := by
  constructor
  · exact (booking_conflict_alternatives _ _ (fun _ => .timeout) 0 (by decide)).1
  · have h := (booking_conflict_alternatives
      { doctor_id := "dr_001", preferred_date := "12/15/2024",
        preferred_time := "09:00", doctor_name := none }
      { detail := none } (fun _ => .ok { available_times := some ["10:00"] }) 0 (by decide)).1
    rw [h]
    rfl

/-- Claim C5: for every doctor, parseable start date and per-day outcome
sequence, the scanner returns (does not raise) exactly the days whose
availability call succeeded with a non-empty times list, as date+times
records in chronological scan order; failed days (and zero-time days) are
omitted without aborting the scan — one scanner call is still made for
every day of the window — and all per-day errors are joined into a single
logged warning string. -/
theorem scanner_collects_successful_days (avail : Nat → AvailHttp)
    (doctor_id start_date : String) (num_days k : Nat) (d0 : Date)
    (h : parseDate start_date = some d0) :
    check_next_available_slots avail doctor_id start_date num_days k =
      ⟨.ok ((List.range num_days).filterMap (fun i =>
          if (get_doctor_availability (avail (k + i))).success = true ∧
             (get_doctor_availability (avail (k + i))).available_times.getD [] ≠ [] then
            some ⟨formatDate (addDays d0 i),
                  (get_doctor_availability (avail (k + i))).available_times.getD []⟩
          else none),
        if ((List.range num_days).filterMap (fun i =>
              if (get_doctor_availability (avail (k + i))).success = true then none
              else some ("Error checking " ++ formatDate (addDays d0 i) ++ ": " ++
                optionText (get_doctor_availability (avail (k + i))).error))) = [] then none
        else some ("Errors while checking availability: " ++ joinSep "; "
          ((List.range num_days).filterMap (fun i =>
              if (get_doctor_availability (avail (k + i))).success = true then none
              else some ("Error checking " ++ formatDate (addDays d0 i) ++ ": " ++
                optionText (get_doctor_availability (avail (k + i))).error))))),
       k + num_days,
       (List.range num_days).map (fun i =>
         NetCall.availability .scanner doctor_id (formatDate (addDays d0 i)))⟩ := by
  simp only [check_next_available_slots, h, scanLoop_spec]

/-- Witness for C5: the spec's 5-day example — day 2 times out, the other
four days each return one time; the result has exactly 4 entries in
chronological order with day 2 omitted, and the aggregate warning. -/
theorem scanner_collects_successful_days_witness :
    check_next_available_slots
        (fun i => if i = 1 then .timeout else .ok { available_times := some ["09:00"] })
        "dr_001" "12/15/2024" 5 0 =
      ⟨.ok ([⟨"12/15/2024", ["09:00"]⟩, ⟨"12/17/2024", ["09:00"]⟩,
             ⟨"12/18/2024", ["09:00"]⟩, ⟨"12/19/2024", ["09:00"]⟩],
        some "Errors while checking availability: Error checking 12/16/2024: Service temporarily unavailable"),
       5,
       [.availability .scanner "dr_001" "12/15/2024",
        .availability .scanner "dr_001" "12/16/2024",
        .availability .scanner "dr_001" "12/17/2024",
        .availability .scanner "dr_001" "12/18/2024",
        .availability .scanner "dr_001" "12/19/2024"]⟩ := by
  have h := scanner_collects_successful_days
    (fun i => if i = 1 then .timeout else .ok { available_times := some ["09:00"] })
    "dr_001" "12/15/2024" 5 0 ⟨12, 15, 2024⟩ (by decide)
  rw [h]
  decide

/-- Claim C1: display truncation never removes data from the structured
suggestions payload.  Same-day branch (initial check succeeded with a
non-empty list, and the requested time is unavailable or its booking
failed): the response text renders only the first 5 fetched times, in
upstream order, while the suggestions payload carries the complete fetched
list together with the requested date.  Multi-day branch (fetched list
empty, scan returned non-empty): the text renders only the first 3 days
with at most 3 times each (inside `renderDay`), while the suggestions
payload carries every returned day with its complete times list. -/
theorem display_truncation_preserves_payload (env : Env) (details : BookingDetails)
    (body : AvailBody) (h0 : env.avail 0 = .ok body) :
    ((body.available_times.getD [] ≠ []) →
      (details.preferred_time ∉ body.available_times.getD [] ∨
        (book_appointment details env.book env.avail 1).result.success = false) →
      (chatAppointment env details []).result =
        .ok { response := sameDayText details.preferred_time details.preferred_date
                ((body.available_times.getD []).take 5),
              agent := "Appointment Coordinator", context := none,
              suggestions := some (.sameDay (body.available_times.getD [])
                details.preferred_date) }) ∧
    ((body.available_times.getD [] = []) →
      ∀ (next_days : List DayAvail) (w : Option String) (k2 : Nat) (calls : List NetCall),
        check_next_available_slots env.avail details.doctor_id details.preferred_date 5 1 =
          ⟨.ok (next_days, w), k2, calls⟩ →
        next_days ≠ [] →
        (chatAppointment env details []).result =
          .ok { response := multiDayText details.preferred_date (next_days.take 3),
                agent := "Appointment Coordinator", context := none,
                suggestions := some (.multiDay next_days) }) := by
  constructor
  · intro hne hdisj
    rw [chatAppointment, if_pos rfl]
    by_cases hm : details.preferred_time ∈ body.available_times.getD []
    · rcases hdisj with h | hb
      · exact absurd hm h
      · simp [h0, get_doctor_availability, hm, hb, offerAlternatives, hne,
          sameDayResp]
    · simp [h0, get_doctor_availability, hm, offerAlternatives, hne, sameDayResp]
  · intro hts next_days w k2 calls hscan hnd
    rw [chatAppointment, if_pos rfl]
    simp [h0, get_doctor_availability, hts, offerAlternatives, hscan, hnd,
      multiDayResp]

set_option maxRecDepth 4000 in
/-- Witness for C1, both branches at concrete inputs. -/
theorem display_truncation_preserves_payload_witness :
    ((chatAppointment
        { avail := fun _ => .ok { available_times := some ["10:00", "14:00"] },
          book := .timeout, med := fun _ => none }
        { doctor_id := "dr_001", preferred_date := "12/15/2024",
          preferred_time := "09:00", doctor_name := none } []).result =
      .ok { response := sameDayText "09:00" "12/15/2024" ["10:00", "14:00"],
            agent := "Appointment Coordinator", context := none,
            suggestions := some (.sameDay ["10:00", "14:00"] "12/15/2024") }) ∧
    ((chatAppointment
        { avail := fun i => if i = 0 then .ok { available_times := some [] }
                            else .ok { available_times := some ["10:00"] },
          book := .timeout, med := fun _ => none }
        { doctor_id := "dr_001", preferred_date := "12/15/2024",
          preferred_time := "09:00", doctor_name := none } []).result =
      .ok { response := multiDayText "12/15/2024"
              [⟨"12/15/2024", ["10:00"]⟩, ⟨"12/16/2024", ["10:00"]⟩, ⟨"12/17/2024", ["10:00"]⟩],
            agent := "Appointment Coordinator", context := none,
            suggestions := some (.multiDay
              [⟨"12/15/2024", ["10:00"]⟩, ⟨"12/16/2024", ["10:00"]⟩, ⟨"12/17/2024", ["10:00"]⟩,
               ⟨"12/18/2024", ["10:00"]⟩, ⟨"12/19/2024", ["10:00"]⟩]) }) := by
  constructor
  · have h := (display_truncation_preserves_payload
      { avail := fun _ => .ok { available_times := some ["10:00", "14:00"] },
        book := .timeout, med := fun _ => none }
      { doctor_id := "dr_001", preferred_date := "12/15/2024",
        preferred_time := "09:00", doctor_name := none }
      { available_times := some ["10:00", "14:00"] } rfl).1
      (by decide) (Or.inl (by decide))
    rw [h]
    decide
  · have h := (display_truncation_preserves_payload
      { avail := fun i => if i = 0 then .ok { available_times := some [] }
                          else .ok { available_times := some ["10:00"] },
        book := .timeout, med := fun _ => none }
      { doctor_id := "dr_001", preferred_date := "12/15/2024",
        preferred_time := "09:00", doctor_name := none }
      { available_times := some [] } rfl).2 (by decide)
      [⟨"12/15/2024", ["10:00"]⟩, ⟨"12/16/2024", ["10:00"]⟩, ⟨"12/17/2024", ["10:00"]⟩,
       ⟨"12/18/2024", ["10:00"]⟩, ⟨"12/19/2024", ["10:00"]⟩] none 6
      [.availability .scanner "dr_001" "12/15/2024",
       .availability .scanner "dr_001" "12/16/2024",
       .availability .scanner "dr_001" "12/17/2024",
       .availability .scanner "dr_001" "12/18/2024",
       .availability .scanner "dr_001" "12/19/2024"]
      (by decide) (by decide)
    rw [h]
    decide

/-- Claim C4: when the initial check succeeds, the preferred time is in
the fetched list, and the booking attempt fails, the turn falls through to
the same-day alternatives response built from the very availability list
fetched at call index 0 of that turn — the call trace is the initial
availability call followed only by the booking client's calls (no second
initial-check fetch and no scanner fetch) — presenting the list in its
original order with the full list in the suggestions payload. -/
theorem booking_failure_reuses_fetched_list (env : Env) (details : BookingDetails)
    (body : AvailBody) (h0 : env.avail 0 = .ok body)
    (hm : details.preferred_time ∈ body.available_times.getD [])
    (hb : (book_appointment details env.book env.avail 1).result.success = false) :
    chatAppointment env details [] =
      ⟨.ok { response := sameDayText details.preferred_time details.preferred_date
               ((body.available_times.getD []).take 5),
             agent := "Appointment Coordinator", context := none,
             suggestions := some (.sameDay (body.available_times.getD [])
               details.preferred_date) },
       NetCall.availability .initialCheck details.doctor_id details.preferred_date ::
         (book_appointment details env.book env.avail 1).calls⟩ ∧
    (chatAppointment env details []).calls.countP isInitialAvail = 1 ∧
    (chatAppointment env details []).calls.countP isScanAvail = 0 := by
  have hne : body.available_times.getD [] ≠ [] := List.ne_nil_of_mem hm
  have hmain : chatAppointment env details [] =
      ⟨.ok { response := sameDayText details.preferred_time details.preferred_date
               ((body.available_times.getD []).take 5),
             agent := "Appointment Coordinator", context := none,
             suggestions := some (.sameDay (body.available_times.getD [])
               details.preferred_date) },
       NetCall.availability .initialCheck details.doctor_id details.preferred_date ::
         (book_appointment details env.book env.avail 1).calls⟩ := by
    rw [chatAppointment, if_pos rfl]
    simp [h0, get_doctor_availability, hm, hb, offerAlternatives, hne, sameDayResp]
  refine ⟨hmain, ?_, ?_⟩ <;> rw [hmain]
  · have hcnt : (book_appointment details env.book env.avail 1).calls.countP isInitialAvail = 0 := by
      rw [book_appointment]
      split
      · cases env.book with
        | response status b =>
          by_cases h2 : status = 200
          · simp [h2, List.countP_cons, isInitialAvail]
          · by_cases h4 : status = 409
            · simp [h2, h4, List.countP_cons, isInitialAvail]
            · simp [h2, h4, List.countP_cons, isInitialAvail]
        | timeout => simp [List.countP_cons, isInitialAvail]
        | unexpected => simp [List.countP_cons, isInitialAvail]
      · simp
    simp [List.countP_cons, isInitialAvail, hcnt]
  · have hcnt : (book_appointment details env.book env.avail 1).calls.countP isScanAvail = 0 := by
      rw [book_appointment]
      split
      · cases env.book with
        | response status b =>
          by_cases h2 : status = 200
          · simp [h2, List.countP_cons, isScanAvail]
          · by_cases h4 : status = 409
            · simp [h2, h4, List.countP_cons, isScanAvail]
            · simp [h2, h4, List.countP_cons, isScanAvail]
        | timeout => simp [List.countP_cons, isScanAvail]
        | unexpected => simp [List.countP_cons, isScanAvail]
      · simp
    simp [List.countP_cons, isScanAvail, hcnt]

/-- Witness for C4: preferred time present, booking POST times out. -/
theorem booking_failure_reuses_fetched_list_witness :
    chatAppointment
        { avail := fun _ => .ok { available_times := some ["09:00", "10:00"] },
          book := .timeout, med := fun _ => none }
        { doctor_id := "dr_001", preferred_date := "12/15/2024",
          preferred_time := "09:00", doctor_name := none } [] =
      ⟨.ok { response := sameDayText "09:00" "12/15/2024" ["09:00", "10:00"],
             agent := "Appointment Coordinator", context := none,
             suggestions := some (.sameDay ["09:00", "10:00"] "12/15/2024") },
       [.availability .initialCheck "dr_001" "12/15/2024",
        .booking "dr_001" "12/15/2024" "09:00"]⟩ := by
  have h := (booking_failure_reuses_fetched_list
    { avail := fun _ => .ok { available_times := some ["09:00", "10:00"] },
      book := .timeout, med := fun _ => none }
    { doctor_id := "dr_001", preferred_date := "12/15/2024",
      preferred_time := "09:00", doctor_name := none }
    { available_times := some ["09:00", "10:00"] } rfl (by decide) (by decide)).1
  rw [h]
  decide

/-- Claim C9: for a start date that does not parse under `MM/DD/YYYY`, the
scanner raises `ValueError` from the initial parse (modelled `.error`),
before consulting the availability service at all: the result is the same
raised fault for every network oracle and the call trace is empty. -/
theorem scanner_raises_on_malformed_date (avail : Nat → AvailHttp)
    (doctor_id start_date : String) (num_days k : Nat)
    (h : parseDate start_date = none) :
    check_next_available_slots avail doctor_id start_date num_days k =
      ⟨.error .valueError, k, []⟩ := by
  simp only [check_next_available_slots, h]

/-- Witness for C9 at a concrete ISO-formatted (hence malformed) date. -/
theorem scanner_raises_on_malformed_date_witness :
    check_next_available_slots (fun _ => .ok { available_times := some ["09:00"] })
        "dr_001" "2024-12-15" 5 0 = ⟨.error .valueError, 0, []⟩ :=
  scanner_raises_on_malformed_date _ _ _ 5 0 (by decide)

/-- Claim C7: the per-turn message-processing wrapper retries a failed
agent call up to 2 times — at most three attempts at indices 0, 1, 2, with
one 1-second backoff counted between consecutive attempts — and surfaces
an `HTTPException(500, "Processing error after 2 retries")` only after all
three fail.  The retry applies only to the wrapped agent call: the
negotiation's own network calls are never repeated by it — an appointment
turn's trace holds at most one booking POST, at most one initial
availability check, at most one conflict re-fetch, and at most the 5
scanner fetches of a single scan window. -/
theorem retry_only_wraps_agent_call :
    (∀ attempts : Nat → Option String,
      process_message attempts =
        match attempts 0 with
        | some c => (.ok c, 0)
        | none =>
          match attempts 1 with
          | some c => (.ok c, 1)
          | none =>
            match attempts 2 with
            | some c => (.ok c, 2)
            | none => (.error (.http 500 "Processing error after 2 retries"), 2)) ∧
    (∀ (env : Env) (details : BookingDetails) (missing_fields : List String),
      (chatAppointment env details missing_fields).calls.countP isBookCall ≤ 1 ∧
      (chatAppointment env details missing_fields).calls.countP isInitialAvail ≤ 1 ∧
      (chatAppointment env details missing_fields).calls.countP isConflictAvail ≤ 1 ∧
      (chatAppointment env details missing_fields).calls.countP isScanAvail ≤ 5) := by
  constructor
  · intro attempts
    rcases h0 : attempts 0 with _ | c0
    · rcases h1 : attempts 1 with _ | c1
      · rcases h2 : attempts 2 with _ | c2
        · simp [process_message, pmLoop, h0, h1, h2]
          rfl
        · simp [process_message, pmLoop, h0, h1, h2]
      · simp [process_message, pmLoop, h0, h1]
    · simp [process_message, pmLoop, h0]
  · intro env details missing_fields
    obtain ⟨b1, b2, b3, b4⟩ := book_appointment_calls_counts details env.book env.avail 1
    obtain ⟨s1, s2, s3, s4⟩ := scanner_calls_counts env.avail details.doctor_id
      details.preferred_date 5 (book_appointment details env.book env.avail 1).next_k
    obtain ⟨t1, t2, t3, t4⟩ := scanner_calls_counts env.avail details.doctor_id
      details.preferred_date 5 1
    rcases chatAppointment_calls_cases env details missing_fields with h | h | ⟨cs, hcs, h⟩
    · simp [h]
    · simp [h, List.countP_cons, isBookCall, isInitialAvail, isScanAvail, isConflictAvail]
    · rw [h]
      rcases hcs with rfl | rfl | rfl
      · refine ⟨?_, ?_, ?_, ?_⟩ <;>
          simp [List.countP_cons, isBookCall, isInitialAvail, isScanAvail, isConflictAvail,
            b2, b3] <;>
          omega
      · refine ⟨?_, ?_, ?_, ?_⟩ <;>
          simp [List.countP_cons, List.countP_append, isBookCall, isInitialAvail,
            isScanAvail, isConflictAvail, b2, b3, s1, s2, s3] <;>
          omega
      · refine ⟨?_, ?_, ?_, ?_⟩ <;>
          simp [List.countP_cons, isBookCall, isInitialAvail, isScanAvail, isConflictAvail,
            t1, t2, t3] <;>
          omega

/-- Counterexample for C8: a malformed `preferred_date` makes the scanner
raise, the fault reaches the `/chat` boundary and is caught there — but
the caller-visible outcome is HTTP 200 (the success status) carrying the
generic apology `MessageResponse`, not a non-success status. -/
theorem boundary_fault_counterexample :
    (chatBody faultEnv faultRouting).result = .error .valueError ∧
    chatEndpoint faultEnv faultRouting =
      (200, .message { response := apologyText, agent := "system", context := none,
                       suggestions := none }) := by
  constructor
  · decide
  · decide

/-- Claim C8 (amended): any fault raised by the handler body is caught at
the `/chat` boundary and converted into the fixed generic apology response
labelled agent "system" — independent of the fault, so no exception
detail, status code or stack trace reaches the caller — but it is returned
as a normal HTTP 200 success response, not with a non-success status. -/
theorem boundary_fault_generic_200 (env : Env) (routing : Routing) (f : Fault)
    (h : (chatBody env routing).result = .error f) :
    chatEndpoint env routing =
      (200, .message { response := apologyText, agent := "system", context := none,
                       suggestions := none }) := by
  unfold chatEndpoint chat
  simp only [h, runEndpoint]

/-- Witness for the amended C8 at the concrete faulting input. -/
theorem boundary_fault_generic_200_witness :
    chatEndpoint faultEnv faultRouting =
      (200, .message { response := apologyText, agent := "system", context := none,
                       suggestions := none }) :=
  boundary_fault_generic_200 faultEnv faultRouting .valueError (by decide)

end ADRD
